import Mathlib

/-!
Shallow embedding of the mapannai-rcmnd recommendation pipeline
(src/config.py, src/recommendation_generator.py, src/lambda_b_executor.py,
src/lambda_c_checker.py), together with theorems settling the frozen claims.

Numeric values are modelled over `ℚ`; Python's `round(x, 2)` is modelled as
`round2` below, built from Mathlib's `round`.
-/

namespace Mapannai

/-! ### Configuration constants (src/config.py) -/

def FOOD_MAX_RESULTS : Nat := 5

def ATTRACTION_MAX_RESULTS : Nat := 5

def MARKET_MAX_RESULTS : Nat := 5

/-! ### Relevance score (src/recommendation_generator.py lines 1148-1153) -/

/-- Rounding to two decimal places, the model of Python's `round(x, 2)`. -/
def round2 (x : ℚ) : ℚ := (round (100 * x) : ℤ) / 100

/-- The relevance-score computation exactly as written in
`format_places_to_markers`:
`relevance_score = round(0.5 + (rating / 10) if rating else 0.5, 2)` followed by
`relevance_score = round(max(0.1, relevance_score - (idx * 0.05)), 2)`.
Python's truthiness test `if rating` is `rating ≠ 0`. -/
def relevanceScore (rating : ℚ) (idx : ℕ) : ℚ :=
  let s1 := round2 (if rating ≠ 0 then 1/2 + rating / 10 else 1/2)
  round2 (max (1/10) (s1 - idx * (5/100)))

/-- The spec's wording of the same computation: base 0.5, plus rating/10 when a
non-zero rating is present, minus 0.05 × index, floored at 0.1, rounded to two
decimals (a single final rounding). -/
def specRelevanceScore (rating : ℚ) (idx : ℕ) : ℚ :=
  round2 (max (1/10) ((if rating ≠ 0 then 1/2 + rating / 10 else 1/2) - idx * (5/100)))

theorem round2_mono : Monotone round2 := by
  intro a b h
  unfold round2
  have : round (100 * a) ≤ round (100 * b) := by
    rw [round_eq, round_eq]
    exact Int.floor_mono (by linarith)
  have hc : ((round (100 * a) : ℤ) : ℚ) ≤ ((round (100 * b) : ℤ) : ℚ) := by
    exact_mod_cast this
  linarith

theorem round2_intDiv (n : ℤ) : round2 ((n : ℚ) / 100) = (n : ℚ) / 100 := by
  unfold round2
  rw [mul_div_cancel₀ _ (by norm_num : (100 : ℚ) ≠ 0), round_intCast]

theorem round2_sub_intDiv (x : ℚ) (n : ℤ) :
    round2 (x - (n : ℚ) / 100) = round2 x - (n : ℚ) / 100 := by
  unfold round2
  have h1 : 100 * (x - (n : ℚ) / 100) = 100 * x - (n : ℚ) := by ring
  rw [h1, round_sub_int]
  push_cast
  ring

theorem round2_max (a b : ℚ) : round2 (max a b) = max (round2 a) (round2 b) :=
  round2_mono.map_max

theorem round2_round2 (x : ℚ) : round2 (round2 x) = round2 x := by
  unfold round2
  rw [mul_div_cancel₀ _ (by norm_num : (100 : ℚ) ≠ 0), round_intCast]

theorem round2_eq_self_of_intDiv {x : ℚ} (n : ℤ) (h : x = (n : ℚ) / 100) :
    round2 x = x := by rw [h, round2_intDiv]

/-- Normal form: the outer `round` in the code is the identity, because its
argument is already an exact multiple of 1/100. -/
theorem relevanceScore_eq_max (rating : ℚ) (idx : ℕ) :
    relevanceScore rating idx
      = max (1/10) (round2 (if rating ≠ 0 then 1/2 + rating / 10 else 1/2) - idx * (5/100)) := by
  unfold relevanceScore
  set base : ℚ := if rating ≠ 0 then 1/2 + rating / 10 else 1/2 with hbase
  have hidx : (idx : ℚ) * (5/100) = ((5 * idx : ℤ) : ℚ) / 100 := by
    push_cast; ring
  have h110 : (1/10 : ℚ) = ((10 : ℤ) : ℚ) / 100 := by norm_num
  have hs1 : round2 base = ((round (100 * base) : ℤ) : ℚ) / 100 := rfl
  rw [hidx, round2_max, h110, round2_intDiv, hs1, round2_sub_intDiv, round2_intDiv]

/-- The two-step rounded computation of the code agrees with the spec's
single-rounding formula, for every rating and every index. -/
theorem relevanceScore_eq_spec (rating : ℚ) (idx : ℕ) :
    relevanceScore rating idx = specRelevanceScore rating idx := by
  unfold relevanceScore specRelevanceScore
  set base : ℚ := if rating ≠ 0 then 1/2 + rating / 10 else 1/2 with hbase
  have hidx : (idx : ℚ) * (5/100) = ((5 * idx : ℤ) : ℚ) / 100 := by
    push_cast; ring
  have h110 : (1/10 : ℚ) = ((10 : ℤ) : ℚ) / 100 := by norm_num
  have hs1 : round2 base = ((round (100 * base) : ℤ) : ℚ) / 100 := rfl
  rw [hidx]
  rw [round2_max, h110, round2_intDiv, round2_sub_intDiv]
  rw [round2_max, round2_intDiv]
  congr 1
  rw [hs1, round2_intDiv, round2_sub_intDiv, hs1]

theorem relevanceScore_lower (rating : ℚ) (idx : ℕ) :
    1/10 ≤ relevanceScore rating idx := by
  rw [relevanceScore_eq_max]; exact le_max_left _ _

theorem round2_base_ge (rating : ℚ) (h0 : 0 ≤ rating) :
    1/2 ≤ round2 (if rating ≠ 0 then 1/2 + rating / 10 else 1/2) := by
  have h12 : round2 (1/2 : ℚ) = 1/2 := round2_eq_self_of_intDiv 50 (by norm_num)
  calc (1/2 : ℚ) = round2 (1/2) := h12.symm
    _ ≤ _ := by
        apply round2_mono
        by_cases h : rating = 0
        · simp [h]
        · simp only [h, ne_eq, not_false_iff, if_true]
          have : 0 ≤ rating / 10 := by positivity
          linarith

theorem round2_base_le (rating : ℚ) (h5 : rating ≤ 5) :
    round2 (if rating ≠ 0 then 1/2 + rating / 10 else 1/2) ≤ 1 := by
  have h1 : round2 (1 : ℚ) = 1 := round2_eq_self_of_intDiv 100 (by norm_num)
  calc round2 (if rating ≠ 0 then 1/2 + rating / 10 else 1/2)
      ≤ round2 1 := by
        apply round2_mono
        by_cases h : rating = 0
        · simp [h]; norm_num
        · simp only [h, ne_eq, not_false_iff, if_true]
          have : rating / 10 ≤ 1/2 := by linarith
          linarith
    _ = 1 := h1

theorem relevanceScore_upper (rating : ℚ) (idx : ℕ)
    (h5 : rating ≤ 5) : relevanceScore rating idx ≤ 1 := by
  rw [relevanceScore_eq_max]
  apply max_le (by norm_num)
  have hb := round2_base_le rating h5
  have : (0 : ℚ) ≤ (idx : ℚ) * (5/100) := by positivity
  linarith

theorem relevanceScore_antitone (rating : ℚ) {i j : ℕ} (hij : i ≤ j) :
    relevanceScore rating j ≤ relevanceScore rating i := by
  rw [relevanceScore_eq_max, relevanceScore_eq_max]
  apply max_le_max le_rfl
  have : (i : ℚ) ≤ (j : ℚ) := by exact_mod_cast hij
  nlinarith

theorem relevanceScore_strict_anti (rating : ℚ) (h0 : 0 ≤ rating)
    {i j : ℕ} (hij : i < j) (hj : j ≤ 8) :
    relevanceScore rating j < relevanceScore rating i := by
  rw [relevanceScore_eq_max, relevanceScore_eq_max]
  have hb := round2_base_ge rating h0
  have hi : (i : ℚ) < (j : ℚ) := by exact_mod_cast hij
  have hj8 : (j : ℚ) ≤ 8 := by exact_mod_cast hj
  set s1 := round2 (if rating ≠ 0 then 1/2 + rating / 10 else 1/2) with hs1
  have hjfloor : (1/10 : ℚ) ≤ s1 - (j : ℚ) * (5/100) := by nlinarith
  have hmj : max (1/10 : ℚ) (s1 - (j : ℚ) * (5/100)) = s1 - (j : ℚ) * (5/100) :=
    max_eq_right hjfloor
  rw [hmj]
  have : s1 - (j : ℚ) * (5/100) < s1 - (i : ℚ) * (5/100) := by nlinarith
  exact lt_of_lt_of_le this (le_max_right _ _)

/-! ### Data model

`PlaceInfo` models the `place_info` dictionaries produced by the fetch stages.
Optional dictionary keys are modelled with `Option`; `rating` is a plain field
because every constructor of `place_info` in the source sets it. -/

structure PlaceInfo where
  place_id : String
  name : String
  formatted_address : String
  summary : Option String
  rating : ℚ
  website : String
  lat : Option ℚ
  lng : Option ℚ
  s3_image_url : Option String
  s3_image_urls : List String
  reviews : List String
deriving DecidableEq, Repr

/-- One Editor.js content block, as emitted by `format_places_to_markers`. -/
inductive Block where
  | header (text : String) (level : Nat)
  | image (url : String) (caption : String) (withBorder : Bool)
  | paragraph (text : String)
deriving DecidableEq, Repr

structure Coordinates where
  latitude : ℚ
  longitude : ℚ
deriving DecidableEq, Repr

structure EditorData where
  time : ℕ
  blocks : List Block
  version : String
deriving DecidableEq, Repr

structure MarkerContent where
  id : String
  title : String
  headerImage : String
  iconType : String
  editorData : EditorData
  createdAt : String
  updatedAt : String
deriving DecidableEq, Repr

structure MarkerActions where
  deeplink : String
deriving DecidableEq, Repr

structure Marker where
  id : String
  coordinates : Coordinates
  content : MarkerContent
  relevanceScore : ℚ
  tags : List String
  actions : MarkerActions
deriving DecidableEq, Repr

structure ResultDocument where
  requestId : String
  generatedAt : String
  ttlSeconds : ℕ
  markers : List Marker
deriving DecidableEq, Repr

/-! ### Assembler helpers (src/recommendation_generator.py lines 1021-1063) -/

/-- Python `f"{n:02d}"` for a non-negative argument. -/
def pad2 (n : ℕ) : String := if n < 10 then "0" ++ toString n else toString n

/-- `generate_marker_id`. -/
def generateMarkerId (idx : ℕ) : String := "mk_" ++ pad2 (idx + 1)

/-- `generate_content_id`. -/
def generateContentId (idx : ℕ) : String := "post_" ++ pad2 (idx + 1)

/-- `get_icon_type`. -/
def getIconType (mainType : String) : String :=
  if mainType = "美食" then "food"
  else if mainType = "名胜古迹和旅游景点" then "attraction"
  else if mainType = "跳蚤市场或活动" then "activity"
  else "poi"

/-- The `sub_type_tags` lookup inside `get_tags_for_type` (default `[]`). -/
def subTypeTags (subType : String) : List String :=
  if subType = "异国料理" then ["international", "restaurant"]
  else if subType = "拉面" then ["ramen", "noodles"]
  else if subType = "烤肉" then ["yakiniku", "bbq"]
  else if subType = "寿喜烧" then ["sukiyaki", "hotpot"]
  else if subType = "中华" then ["chinese", "restaurant"]
  else if subType = "海鲜" then ["seafood", "restaurant"]
  else if subType = "居酒屋" then ["izakaya", "bar"]
  else []

/-- `get_tags_for_type`. -/
def getTagsForType (mainType subType : String) : List String :=
  if mainType = "美食" then
    "food" :: (if subType ≠ "" then subTypeTags subType else [])
  else if mainType = "名胜古迹和旅游景点" then ["attraction", "sightseeing", "tourism"]
  else if mainType = "跳蚤市场或活动" then ["activity", "event", "market"]
  else []

/-! ### Document Assembler (`format_places_to_markers`, lines 1066-1190) -/

/-- The per-place image-URL selection at the top of the marker loop. -/
def imageUrlsFor (mainType : String) (p : PlaceInfo) : List String :=
  if mainType = "名胜古迹和旅游景点" then p.s3_image_urls
  else if mainType = "美食" then
    match p.s3_image_url with
    | some u => [u]
    | none => []
  else []

/-- The Editor.js blocks assembled for one place. -/
def placeBlocks (mainType : String) (p : PlaceInfo) : List Block :=
  let urls := imageUrlsFor mainType p
  let imageBlocks := urls.enum.filterMap fun iu =>
    if iu.2 ≠ "" then
      some (Block.image iu.2
        (p.name ++ " - " ++ p.formatted_address ++
          (if urls.length > 1 then " (图" ++ toString (iu.1 + 1) ++ ")" else ""))
        true)
    else none
  [Block.header p.name 2] ++ imageBlocks ++
    [Block.paragraph ("【概要】" ++ (p.summary.getD "暂无概要"))] ++
    (if p.website ≠ "" then
      [Block.paragraph ("信息来源：[点击跳转原链接](" ++ p.website ++ ")")]
    else [])

/-- The marker built for the place at position `idx` of the candidate list.
`generatedAt` and `currentTimestamp` model the single clock reads taken at the
top of `format_places_to_markers`. -/
def buildMarker (mainType subType generatedAt : String) (currentTimestamp : ℕ)
    (idx : ℕ) (p : PlaceInfo) : Marker :=
  let markerId := generateMarkerId idx
  { id := markerId
    coordinates :=
      { latitude := p.lat.getD 0
        longitude := p.lng.getD 0 }
    content :=
      { id := generateContentId idx
        title := p.name
        headerImage := (imageUrlsFor mainType p).headD ""
        iconType := getIconType mainType
        editorData :=
          { time := currentTimestamp
            blocks := placeBlocks mainType p
            version := "2.29.0" }
        createdAt := generatedAt
        updatedAt := generatedAt }
    relevanceScore := relevanceScore p.rating idx
    tags := getTagsForType mainType subType
    actions := { deeplink := "mapannai://marker/" ++ markerId } }

/-- `format_places_to_markers`.  The request id, generation timestamp and
millisecond timestamp are drawn from `uuid4` and the wall clock in the source;
they are explicit parameters here. -/
def formatPlacesToMarkers (processedPlaces : List PlaceInfo)
    (mainType subType requestId generatedAt : String)
    (currentTimestamp : ℕ) : ResultDocument :=
  { requestId := requestId
    generatedAt := generatedAt
    ttlSeconds := 300
    markers := processedPlaces.enum.map fun ip =>
      buildMarker mainType subType generatedAt currentTimestamp ip.1 ip.2 }

/-- Stripping the volatile fields of a marker: creation/update timestamps and
the editor-data clock value. -/
def stripMarkerVolatile (m : Marker) : Marker :=
  { m with content := { m.content with
      createdAt := ""
      updatedAt := ""
      editorData := { m.content.editorData with time := 0 } } }

/-- Stripping the volatile fields of a result document: the freshly drawn
request id, the generation timestamp, and each marker's volatile fields. -/
def stripVolatile (doc : ResultDocument) : ResultDocument :=
  { requestId := ""
    generatedAt := ""
    ttlSeconds := doc.ttlSeconds
    markers := doc.markers.map stripMarkerVolatile }

/-- A sample candidate used in concrete instantiations. -/
def samplePlace : PlaceInfo :=
  { place_id := "pid_1"
    name := "店A"
    formatted_address := "东京都"
    summary := some "概要"
    rating := 3
    website := "https://example.com"
    lat := some 35
    lng := some 139
    s3_image_url := none
    s3_image_urls := []
    reviews := [] }

/-- A rating-zero candidate used in the claim-3 counterexample. -/
def zeroRatingPlace : PlaceInfo :=
  { place_id := "pid_0"
    name := "活动"
    formatted_address := "横滨"
    summary := some "概要"
    rating := 0
    website := ""
    lat := some 35
    lng := some 139
    s3_image_url := none
    s3_image_urls := []
    reviews := [] }

theorem round2_half : round2 (1/2 : ℚ) = 1/2 :=
  round2_eq_self_of_intDiv 50 (by norm_num)

theorem relevanceScore_zero_rating (idx : ℕ) :
    relevanceScore 0 idx = max (1/10 : ℚ) (1/2 - (idx : ℚ) * (5/100)) := by
  rw [relevanceScore_eq_max, if_neg (by simp : ¬ (0:ℚ) ≠ 0), round2_half]

/-- Shared helper: the relevance score of the `i`-th marker is the code's score
function applied to the `i`-th candidate's rating and `i`. -/
theorem markers_relevance_getElem (processedPlaces : List PlaceInfo)
    (mainType subType requestId generatedAt : String) (currentTimestamp : ℕ)
    (i : ℕ) :
    ((formatPlacesToMarkers processedPlaces mainType subType requestId
        generatedAt currentTimestamp).markers[i]?).map Marker.relevanceScore
      = (processedPlaces[i]?).map fun p => relevanceScore p.rating i := by
  simp only [formatPlacesToMarkers, List.getElem?_map, List.getElem?_enum]
  cases processedPlaces[i]? with
  | none => rfl
  | some p => rfl

/-- C2.  The marker at position `i` carries exactly the spec's relevance-score
formula applied to that candidate's rating and `i`. -/
theorem claim2_relevance_formula (processedPlaces : List PlaceInfo)
    (mainType subType requestId generatedAt : String) (currentTimestamp : ℕ)
    (i : ℕ) :
    ((formatPlacesToMarkers processedPlaces mainType subType requestId
        generatedAt currentTimestamp).markers[i]?).map Marker.relevanceScore
      = (processedPlaces[i]?).map fun p => specRelevanceScore p.rating i := by
  rw [markers_relevance_getElem]
  cases processedPlaces[i]? with
  | none => rfl
  | some p => simp [relevanceScore_eq_spec]

/-- C10.  The marker at position `i` has identifier `mk_` followed by `i+1`
zero-padded to two digits, content identifier `post_` with the same number, and
deeplink `mapannai://marker/` followed by its own marker identifier; none of
these depend on the place itself. -/
theorem claim10_positional_ids (processedPlaces : List PlaceInfo)
    (mainType subType requestId generatedAt : String) (currentTimestamp : ℕ)
    (i : ℕ) :
    ((formatPlacesToMarkers processedPlaces mainType subType requestId
        generatedAt currentTimestamp).markers[i]?).map
        (fun (m : Marker) => (m.id, m.content.id, m.actions.deeplink))
      = (processedPlaces[i]?).map fun _ =>
          ("mk_" ++ pad2 (i + 1), "post_" ++ pad2 (i + 1),
            "mapannai://marker/" ++ ("mk_" ++ pad2 (i + 1))) := by
  simp only [formatPlacesToMarkers, List.getElem?_map, List.getElem?_enum]
  cases processedPlaces[i]? with
  | none => rfl
  | some p => rfl

/-- C9 counterexample: two invocations of the assembler on the same candidate
list, category and subcategory, but with the distinct request identifiers the
two uuid draws produce, yield different result documents. -/
theorem claim9_counterexample :
    formatPlacesToMarkers [samplePlace] "美食" "" "req_11111111"
        "2024-01-01T00:00:00Z" 1700000000000
      ≠ formatPlacesToMarkers [samplePlace] "美食" "" "req_22222222"
        "2024-01-01T00:00:00Z" 1700000000000 := by
  intro h
  have hreq := congrArg ResultDocument.requestId h
  simp [formatPlacesToMarkers] at hreq

/-- C9 amended: the assembler is deterministic apart from the ambient draws it
embeds verbatim (request id, generation timestamp, editor clock): stripping
those fields, two invocations on the same candidate list, category and
subcategory agree. -/
theorem claim9_amended (processedPlaces : List PlaceInfo)
    (mainType subType : String)
    (requestId1 generatedAt1 : String) (currentTimestamp1 : ℕ)
    (requestId2 generatedAt2 : String) (currentTimestamp2 : ℕ) :
    stripVolatile (formatPlacesToMarkers processedPlaces mainType subType
        requestId1 generatedAt1 currentTimestamp1)
      = stripVolatile (formatPlacesToMarkers processedPlaces mainType subType
        requestId2 generatedAt2 currentTimestamp2) := by
  simp only [stripVolatile, formatPlacesToMarkers, List.map_map]
  refine congrArg (fun ms => ResultDocument.mk "" "" 300 ms) ?_
  apply List.map_congr_left
  intro ip _
  rfl

/-- C3 amended: every marker's relevance score lies in `[0.1, 1.0]` when
candidate ratings lie in the provider range `[0, 5]`; for a fixed rating the
score strictly decreases with the index while above the 0.1 floor
(in particular up to index 8), and is non-increasing in general.  (The claim's
unconditional strict decrease fails once the floor is reached; see the
counterexample.) -/
theorem claim3_amended (processedPlaces : List PlaceInfo)
    (mainType subType requestId generatedAt : String) (currentTimestamp : ℕ)
    (hr : ∀ p ∈ processedPlaces, 0 ≤ p.rating ∧ p.rating ≤ 5) :
    (∀ (i : ℕ) (m : Marker),
        (formatPlacesToMarkers processedPlaces mainType subType requestId
          generatedAt currentTimestamp).markers[i]? = some m →
        1/10 ≤ m.relevanceScore ∧ m.relevanceScore ≤ 1)
    ∧ (∀ r : ℚ, 0 ≤ r → ∀ i j : ℕ, i < j → j ≤ 8 →
        relevanceScore r j < relevanceScore r i)
    ∧ (∀ r : ℚ, ∀ i j : ℕ, i ≤ j →
        relevanceScore r j ≤ relevanceScore r i) := by
  refine ⟨?_, fun r h0 i j hij hj => relevanceScore_strict_anti r h0 hij hj,
    fun r i j hij => relevanceScore_antitone r hij⟩
  intro i m hm
  have hrel := markers_relevance_getElem processedPlaces mainType subType
    requestId generatedAt currentTimestamp i
  rw [hm] at hrel
  cases hp : processedPlaces[i]? with
  | none => rw [hp] at hrel; simp at hrel
  | some p =>
      rw [hp] at hrel
      simp at hrel
      have hpmem : p ∈ processedPlaces := List.getElem?_mem hp
      obtain ⟨h0, h5⟩ := hr p hpmem
      rw [hrel]
      exact ⟨relevanceScore_lower _ _, relevanceScore_upper _ _ h5⟩

/-- C3 witness: the amended theorem applied to a concrete one-candidate list
with rating 3. -/
theorem claim3_witness :
    (∀ p ∈ [samplePlace], 0 ≤ p.rating ∧ p.rating ≤ 5)
    ∧ (1/10 ≤ (buildMarker "美食" "" "g" 0 0 samplePlace).relevanceScore
        ∧ (buildMarker "美食" "" "g" 0 0 samplePlace).relevanceScore ≤ 1)
    ∧ relevanceScore 3 1 < relevanceScore 3 0 := by
  have hyp : ∀ p ∈ [samplePlace], 0 ≤ p.rating ∧ p.rating ≤ 5 := by
    intro p hp
    simp only [List.mem_singleton] at hp
    subst hp
    norm_num [samplePlace]
  have h := claim3_amended [samplePlace] "美食" "" "r" "g" 0 hyp
  refine ⟨hyp, h.1 0 _ ?_, h.2.1 3 (by norm_num) 0 1 (by norm_num) (by norm_num)⟩
  rfl

/-- C3 counterexample: in a ten-candidate list all sharing rating 0, the
markers at positions 8 and 9 carry the same relevance score 0.1, so the score
does not strictly decrease with the index. -/
theorem claim3_counterexample :
    ((formatPlacesToMarkers (List.replicate 10 zeroRatingPlace)
        "跳蚤市场或活动" "" "req_33333333" "2024-01-01T00:00:00Z" 0).markers[8]?).map
        Marker.relevanceScore = some (1/10)
    ∧ ((formatPlacesToMarkers (List.replicate 10 zeroRatingPlace)
        "跳蚤市场或活动" "" "req_33333333" "2024-01-01T00:00:00Z" 0).markers[9]?).map
        Marker.relevanceScore = some (1/10) := by
  have h8 : relevanceScore 0 8 = 1/10 := by
    rw [relevanceScore_zero_rating]
    rw [show (1/2 : ℚ) - ((8 : ℕ) : ℚ) * (5/100) = 1/10 by norm_num,
      max_eq_left le_rfl]
  have h9 : relevanceScore 0 9 = 1/10 := by
    rw [relevanceScore_zero_rating, max_eq_left (by norm_num)]
  constructor
  · rw [markers_relevance_getElem, List.getElem?_replicate_of_lt (by norm_num)]
    simp [zeroRatingPlace, h8]
  · rw [markers_relevance_getElem, List.getElem?_replicate_of_lt (by norm_num)]
    simp [zeroRatingPlace, h9]

/-! ### Flea-market classification (`is_flea_market`, lines 718-734) -/

def fleaMarketKeywords : List String :=
  ["跳蚤市场", "フリーマーケット", "フリマ", "蚤の市", "古物市場",
   "flea market", "flea", "market", "古着", "中古", "リサイクル"]

/-- Python's substring test `pat in text`, on the underlying character lists. -/
def strContainsSub (text pat : String) : Bool :=
  text.data.tails.any fun t => pat.data.isPrefixOf t

/-- `is_flea_market`: keyword match against lowercased `name + " " + summary`. -/
def isFleaMarket (placeName placeSummary : String) : Bool :=
  let textToCheck := (placeName ++ " " ++ placeSummary).toLower
  fleaMarketKeywords.any fun k => strContainsSub textToCheck k.toLower

/-! ### Generative-search candidates -/

/-- One element of the list returned by `fetch_places_via_gemini`. -/
structure GeminiPlace where
  name : String
  formatted_address : String
  summary : String
  rating : ℚ
  website : String
  lat : Option ℚ
  lng : Option ℚ
deriving DecidableEq, Repr

/-- The sort key `(not is_flea_market, name)` of lines 847-848, as a boolean
comparison: flea markets (key 0) precede others (key 1), ties broken by the
name's code-point order (Python string comparison). -/
def fleaKey (p : GeminiPlace) : ℕ :=
  if isFleaMarket p.name p.summary then 0 else 1

def eventLe (a b : GeminiPlace) : Bool :=
  decide (fleaKey a < fleaKey b ∨ (fleaKey a = fleaKey b ∧ a.name ≤ b.name))

/-- `places.sort(key=lambda x: (not x.get("is_flea_market", False), x.get("name", "")))`. -/
def sortEventPlaces (places : List GeminiPlace) : List GeminiPlace :=
  places.mergeSort eventLe

/-- Lines 841-855: tag, sort (flea markets first, then by name) and truncate to
`MARKET_MAX_RESULTS`. -/
def processEventPlaces (places : List GeminiPlace) : List GeminiPlace :=
  (sortEventPlaces places).take MARKET_MAX_RESULTS

theorem eventLe_trans (a b c : GeminiPlace) :
    eventLe a b → eventLe b c → eventLe a c := by
  simp only [eventLe, decide_eq_true_eq]
  rintro (hab | ⟨hab, hnab⟩) (hbc | ⟨hbc, hnbc⟩)
  · exact Or.inl (lt_trans hab hbc)
  · exact Or.inl (hbc ▸ hab)
  · exact Or.inl (hab ▸ hbc)
  · exact Or.inr ⟨hab.trans hbc, le_trans hnab hnbc⟩

theorem eventLe_total (a b : GeminiPlace) : eventLe a b || eventLe b a := by
  simp only [eventLe, Bool.or_eq_true, decide_eq_true_eq]
  rcases Nat.lt_trichotomy (fleaKey a) (fleaKey b) with h | h | h
  · exact Or.inl (Or.inl h)
  · rcases le_total a.name b.name with hn | hn
    · exact Or.inl (Or.inr ⟨h, hn⟩)
    · exact Or.inr (Or.inr ⟨h.symm, hn⟩)
  · exact Or.inr (Or.inl h)

theorem fleaKey_eq_zero_iff (p : GeminiPlace) :
    fleaKey p = 0 ↔ isFleaMarket p.name p.summary = true := by
  unfold fleaKey
  by_cases h : isFleaMarket p.name p.summary <;> simp [h]

/-- C4.  For the events category, the processed candidate list is the sorted
list truncated to `MARKET_MAX_RESULTS`; all flea-market-classified candidates
precede all others, each group is internally in name order, and every retained
candidate comes from the input. -/
theorem claim4_events_ordering (places : List GeminiPlace) :
    (processEventPlaces places).length = min MARKET_MAX_RESULTS places.length
    ∧ (∀ p ∈ processEventPlaces places, p ∈ places)
    ∧ (processEventPlaces places).Pairwise (fun a b =>
        (isFleaMarket b.name b.summary = true →
          isFleaMarket a.name a.summary = true)
        ∧ (isFleaMarket a.name a.summary = isFleaMarket b.name b.summary →
          a.name ≤ b.name)) := by
  refine ⟨?_, ?_, ?_⟩
  · simp [processEventPlaces, sortEventPlaces]
  · intro p hp
    have hsub : p ∈ sortEventPlaces places :=
      List.take_subset _ _ hp
    simpa [sortEventPlaces] using hsub
  · have hsorted : List.Pairwise (fun a b => eventLe a b = true)
        (places.mergeSort eventLe) :=
      List.sorted_mergeSort eventLe_trans eventLe_total places
    have htake : List.Pairwise (fun a b => eventLe a b = true)
        (processEventPlaces places) := by
      have heq : processEventPlaces places
          = (places.mergeSort eventLe).take MARKET_MAX_RESULTS := rfl
      rw [heq]
      exact hsorted.sublist (List.take_sublist _ _)
    refine htake.imp ?_
    intro a b hab
    simp only [eventLe, decide_eq_true_eq] at hab
    constructor
    · intro hb
      have hkb : fleaKey b = 0 := (fleaKey_eq_zero_iff b).mpr hb
      rcases hab with h | ⟨h, _⟩
      · omega
      · exact (fleaKey_eq_zero_iff a).mp (by omega)
    · intro heq
      have hkeq : fleaKey a = fleaKey b := by
        unfold fleaKey
        rw [heq]
      rcases hab with h | ⟨_, hn⟩
      · omega
      · exact hn

/-! ### Review selection for the food category (lines 612-635) -/

/-- One raw review from the place-details response.  Optional dictionary keys
are `Option`; `rating` keeps the `get("rating", 0)` default semantics. -/
structure Review where
  text : String
  likes : Option ℕ
  thumbs_up : Option ℕ
  helpful_votes : Option ℕ
  rating : Option ℚ
deriving DecidableEq, Repr

/-- Python's `a or b` on an optional number: the first non-`None`, non-zero
value wins. -/
def pyOrNat (a : Option ℕ) (b : ℕ) : ℕ :=
  match a with
  | some n => if n ≠ 0 then n else b
  | none => b

/-- `review.get("likes") or review.get("thumbs_up") or review.get("helpful_votes") or 0`. -/
def reviewLikes (r : Review) : ℕ :=
  pyOrNat r.likes (pyOrNat r.thumbs_up (pyOrNat r.helpful_votes 0))

def reviewRating (r : Review) : ℚ := r.rating.getD 0

/-- Descending comparison on the tuple key `(likes, rating)` used by
`sorted(valid_reviews, key=get_review_score, reverse=True)`. -/
def reviewScoreGe (a b : Review) : Bool :=
  decide (reviewLikes b < reviewLikes a
    ∨ (reviewLikes a = reviewLikes b ∧ reviewRating b ≤ reviewRating a))

theorem reviewScoreGe_trans (a b c : Review) :
    reviewScoreGe a b → reviewScoreGe b c → reviewScoreGe a c := by
  simp only [reviewScoreGe, decide_eq_true_eq]
  rintro (hab | ⟨hab, hrab⟩) (hbc | ⟨hbc, hrbc⟩)
  · exact Or.inl (lt_trans hbc hab)
  · exact Or.inl (hbc ▸ hab)
  · exact Or.inl (hab ▸ hbc)
  · exact Or.inr ⟨hbc ▸ hab, le_trans hrbc hrab⟩

theorem reviewScoreGe_total (a b : Review) : reviewScoreGe a b || reviewScoreGe b a := by
  simp only [reviewScoreGe, Bool.or_eq_true, decide_eq_true_eq]
  rcases Nat.lt_trichotomy (reviewLikes a) (reviewLikes b) with h | h | h
  · exact Or.inr (Or.inl h)
  · rcases le_total (reviewRating a) (reviewRating b) with hr | hr
    · exact Or.inr (Or.inr ⟨h.symm, hr⟩)
    · exact Or.inl (Or.inr ⟨h, hr⟩)
  · exact Or.inl (Or.inl h)

/-- Lines 612-635: keep reviews with text, sort by `(likes, rating)`
descending, take the first five, and return their texts. -/
def selectTopReviews (reviews : List Review) : List String :=
  let validReviews := reviews.filter fun r => r.text ≠ ""
  let sortedReviews := validReviews.mergeSort reviewScoreGe
  (sortedReviews.take 5).map Review.text

/-- C6.  Review selection keeps only reviews with text, at most five of them
(exactly five when five or more valid ones exist), ranked descending by the
helpfulness signal with rating as the fallback, and passes on their texts. -/
theorem claim6_review_selection (reviews : List Review) :
    ∃ chosen : List Review,
      selectTopReviews reviews = chosen.map Review.text
      ∧ chosen.length = min 5 (reviews.filter fun r => r.text ≠ "").length
      ∧ (∀ r ∈ chosen, r ∈ reviews ∧ r.text ≠ "")
      ∧ chosen.Pairwise fun a b =>
          reviewLikes b < reviewLikes a
          ∨ (reviewLikes a = reviewLikes b ∧ reviewRating b ≤ reviewRating a) := by
  refine ⟨((reviews.filter fun r => r.text ≠ "").mergeSort reviewScoreGe).take 5,
    ?_, ?_, ?_, ?_⟩
  · rfl
  · simp
  · intro r hr
    have hmem : r ∈ (reviews.filter fun r => r.text ≠ "").mergeSort reviewScoreGe :=
      List.take_subset _ _ hr
    rw [List.mem_mergeSort, List.mem_filter] at hmem
    exact ⟨hmem.1, by simpa using hmem.2⟩
  · have hsorted := List.sorted_mergeSort reviewScoreGe_trans reviewScoreGe_total
      (reviews.filter fun r => r.text ≠ "")
    have htake := hsorted.sublist
      (List.take_sublist 5 ((reviews.filter fun r => r.text ≠ "").mergeSort reviewScoreGe))
    refine htake.imp ?_
    intro a b hab
    simpa only [reviewScoreGe, decide_eq_true_eq] using hab

/-! ### Food-category structured search (lines 455-662) -/

/-- One element of a nearby-search result page; only the fields the food path
reads are modelled.  `rating` keeps the `x.get("rating", 0)` default. -/
structure NearbyPlace where
  place_id : String
  rating : Option ℚ
deriving DecidableEq, Repr

def nearbyRating (p : NearbyPlace) : ℚ := p.rating.getD 0

/-- The parsed place-details response used by the food path. `website` and
`url` are empty strings when absent; `location` models `geometry.location`
(set with both coordinates or absent). -/
structure PlaceDetails where
  name : String
  rating : ℚ
  formatted_address : String
  website : String
  url : String
  photos : List String
  reviews : List Review
  location : Option (ℚ × ℚ)
deriving DecidableEq, Repr

/-- Python's `a or b` on strings: the first non-empty wins. -/
def pyOrStr (a b : String) : String := if a ≠ "" then a else b

/-- The paging loop of lines 497-533: append each page, stopping early once
`max_results * 3` candidates are collected (food has `max_results = 5`), or
when there is no further page. -/
def collectFoodPages : List (List NearbyPlace) → List NearbyPlace → List NearbyPlace
  | [], acc => acc
  | page :: rest, acc =>
      let acc2 := acc ++ page
      if FOOD_MAX_RESULTS * 3 ≤ acc2.length then acc2
      else collectFoodPages rest acc2

/-- `sorted(all_places, key=lambda x: x.get("rating", 0), reverse=True)`:
descending, stable. -/
def foodLe (a b : NearbyPlace) : Bool := decide (nearbyRating b ≤ nearbyRating a)

/-- Line 538: sort by descending rating and keep the first
`FOOD_MAX_RESULTS`. -/
def foodSelectTop (collected : List NearbyPlace) : List NearbyPlace :=
  (collected.mergeSort foodLe).take FOOD_MAX_RESULTS

/-- The per-place detail lookup of lines 542-637 for the food category.
A missing `place_id` or a non-OK details response skips the candidate
(`continue`); `uploadResult` models the best-effort S3 image upload keyed by
the first photo reference (failures leave the URL unset). -/
def foodDetailStep (details : String → Option PlaceDetails)
    (uploadResult : String → Option String) (lat lng : ℚ)
    (p : NearbyPlace) : Option PlaceInfo :=
  if p.place_id = "" then none
  else
    match details p.place_id with
    | none => none
    | some d =>
        some { place_id := p.place_id
               name := d.name
               rating := d.rating
               formatted_address := d.formatted_address
               summary := none
               website := pyOrStr d.website d.url
               lat := some (d.location.getD (lat, lng)).1
               lng := some (d.location.getD (lat, lng)).2
               s3_image_url := d.photos.head?.bind uploadResult
               s3_image_urls := []
               reviews := selectTopReviews d.reviews }

/-- The whole food fetch stage: collect pages, rank and truncate, then run the
per-place detail lookup, dropping candidates whose lookup fails. -/
def foodProcessedPlaces (details : String → Option PlaceDetails)
    (uploadResult : String → Option String) (lat lng : ℚ)
    (pages : List (List NearbyPlace)) : List PlaceInfo :=
  (foodSelectTop (collectFoodPages pages [])).filterMap
    (foodDetailStep details uploadResult lat lng)

theorem foodLe_trans (a b c : NearbyPlace) :
    foodLe a b → foodLe b c → foodLe a c := by
  simp only [foodLe, decide_eq_true_eq]
  exact fun hab hbc => le_trans hbc hab

theorem foodLe_total (a b : NearbyPlace) : foodLe a b || foodLe b a := by
  simp only [foodLe, Bool.or_eq_true, decide_eq_true_eq]
  exact (le_total (nearbyRating b) (nearbyRating a)).imp id id

/-- Helper: when every selected candidate's detail lookup succeeds and reports
the candidate's search rating, the detail phase is a map on ratings. -/
theorem filterMap_ratings (details : String → Option PlaceDetails)
    (uploadResult : String → Option String) (lat lng : ℚ)
    (l : List NearbyPlace)
    (h : ∀ p ∈ l, ∃ info, foodDetailStep details uploadResult lat lng p = some info
      ∧ info.rating = nearbyRating p) :
    (l.filterMap (foodDetailStep details uploadResult lat lng)).map PlaceInfo.rating
      = l.map nearbyRating := by
  induction l with
  | nil => rfl
  | cons a l ih =>
      obtain ⟨info, hsome, hrat⟩ := h a (List.mem_cons_self a l)
      rw [List.filterMap_cons, hsome]
      simp only [List.map_cons, hrat]
      rw [ih fun p hp => h p (List.mem_cons_of_mem a hp)]

/-- C5.  After the paged collection phase the candidates are ranked by
descending rating and truncated to `FOOD_MAX_RESULTS = 5`; with 12 collected
candidates, all with a usable id and a successful detail lookup reporting the
search rating, the result is exactly 5 markers in descending original-rating
order. -/
theorem claim5_food_sort_truncate
    (pages : List (List NearbyPlace))
    (details : String → Option PlaceDetails)
    (uploadResult : String → Option String) (lat lng : ℚ)
    (subType requestId generatedAt : String) (currentTimestamp : ℕ)
    (h12 : (collectFoodPages pages []).length = 12)
    (hdet : ∀ p ∈ collectFoodPages pages [],
      ∃ info, foodDetailStep details uploadResult lat lng p = some info
        ∧ info.rating = nearbyRating p) :
    (foodProcessedPlaces details uploadResult lat lng pages).length = 5
    ∧ ((foodProcessedPlaces details uploadResult lat lng pages).map
        PlaceInfo.rating).Pairwise (fun a b => b ≤ a)
    ∧ (formatPlacesToMarkers
        (foodProcessedPlaces details uploadResult lat lng pages)
        "美食" subType requestId generatedAt currentTimestamp).markers.length = 5 := by
  have hsel : ∀ p ∈ foodSelectTop (collectFoodPages pages []),
      p ∈ collectFoodPages pages [] := by
    intro p hp
    have := List.take_subset FOOD_MAX_RESULTS
      ((collectFoodPages pages []).mergeSort foodLe) hp
    simpa using this
  have hmapr : (foodProcessedPlaces details uploadResult lat lng pages).map
      PlaceInfo.rating = (foodSelectTop (collectFoodPages pages [])).map nearbyRating :=
    filterMap_ratings details uploadResult lat lng _
      fun p hp => hdet p (hsel p hp)
  have hlen : (foodProcessedPlaces details uploadResult lat lng pages).length = 5 := by
    have h1 : (foodProcessedPlaces details uploadResult lat lng pages).length
        = ((foodProcessedPlaces details uploadResult lat lng pages).map
            PlaceInfo.rating).length := by simp
    rw [h1, hmapr]
    simp [foodSelectTop, h12, FOOD_MAX_RESULTS]
  refine ⟨hlen, ?_, ?_⟩
  · rw [hmapr]
    rw [List.pairwise_map]
    have hsorted : List.Pairwise (fun a b => foodLe a b = true)
        ((collectFoodPages pages []).mergeSort foodLe) :=
      List.sorted_mergeSort foodLe_trans foodLe_total _
    have htake : List.Pairwise (fun a b => foodLe a b = true)
        (foodSelectTop (collectFoodPages pages [])) := by
      have heq : foodSelectTop (collectFoodPages pages [])
          = ((collectFoodPages pages []).mergeSort foodLe).take FOOD_MAX_RESULTS := rfl
      rw [heq]
      exact hsorted.sublist (List.take_sublist _ _)
    refine htake.imp ?_
    intro a b hab
    simpa only [foodLe, decide_eq_true_eq] using hab
  · simp [formatPlacesToMarkers, hlen]

/-! Concrete provider stubs for the claim-5 scenario: one page of 12
candidates with varying ratings, details always succeeding. -/

def w5place (pid : String) (r : ℚ) : NearbyPlace := { place_id := pid, rating := some r }

def w5pages : List (List NearbyPlace) :=
  [[w5place "p01" 3, w5place "p02" 7, w5place "p03" 1, w5place "p04" 9,
    w5place "p05" 5, w5place "p06" 2, w5place "p07" 8, w5place "p08" 4,
    w5place "p09" 6, w5place "p10" 12, w5place "p11" 10, w5place "p12" 11]]

def w5rating (pid : String) : ℚ :=
  if pid = "p01" then 3 else if pid = "p02" then 7 else if pid = "p03" then 1
  else if pid = "p04" then 9 else if pid = "p05" then 5 else if pid = "p06" then 2
  else if pid = "p07" then 8 else if pid = "p08" then 4 else if pid = "p09" then 6
  else if pid = "p10" then 12 else if pid = "p11" then 10 else 11

def w5details (pid : String) : Option PlaceDetails :=
  some { name := pid, rating := w5rating pid, formatted_address := "addr"
         website := "", url := "", photos := [], reviews := []
         location := some (35, 139) }

def w5upload : String → Option String := fun _ => none

/-- C5 witness: the theorem applied to the concrete 12-candidate stub
scenario. -/
theorem claim5_witness :
    ((collectFoodPages w5pages []).length = 12
      ∧ ∀ p ∈ collectFoodPages w5pages [],
          ∃ info, foodDetailStep w5details w5upload 35 139 p = some info
            ∧ info.rating = nearbyRating p)
    ∧ (foodProcessedPlaces w5details w5upload 35 139 w5pages).length = 5
    ∧ ((foodProcessedPlaces w5details w5upload 35 139 w5pages).map
        PlaceInfo.rating).Pairwise (fun a b => b ≤ a)
    ∧ (formatPlacesToMarkers (foodProcessedPlaces w5details w5upload 35 139 w5pages)
        "美食" "" "req_55555555" "2024-01-01T00:00:00Z" 0).markers.length = 5 := by
  have h12 : (collectFoodPages w5pages []).length = 12 := rfl
  have hdet : ∀ p ∈ collectFoodPages w5pages [],
      ∃ info, foodDetailStep w5details w5upload 35 139 p = some info
        ∧ info.rating = nearbyRating p := by
    intro p hp
    have hmem : p ∈ [w5place "p01" 3, w5place "p02" 7, w5place "p03" 1,
        w5place "p04" 9, w5place "p05" 5, w5place "p06" 2, w5place "p07" 8,
        w5place "p08" 4, w5place "p09" 6, w5place "p10" 12, w5place "p11" 10,
        w5place "p12" 11] := hp
    fin_cases hmem <;> exact ⟨_, rfl, rfl⟩
  exact ⟨⟨h12, hdet⟩,
    claim5_food_sort_truncate w5pages w5details w5upload 35 139 ""
      "req_55555555" "2024-01-01T00:00:00Z" 0 h12 hdet⟩

/-! ### Geocoding fallback and the events candidate build (lines 737-781 and
869-909) -/

/-- `geocode_address`: empty addresses short-circuit to `None`; otherwise the
geocoding provider is consulted. -/
def geocodeAddress (provider : String → Option (ℚ × ℚ)) (address : String) :
    Option (ℚ × ℚ) :=
  if address = "" then none else provider address

/-- The events-category `place_info` build of lines 869-909.  Coordinates:
the generative response's own coordinates when present (the parse stage sets
`lat`/`lng` together or not at all, so the `elif "lat" in place` branch never
sees a lone key), then geocoding of the returned address, then the search
center. -/
def eventPlaceInfo (provider : String → Option (ℚ × ℚ)) (lat lng : ℚ)
    (ts : ℕ) (p : GeminiPlace) : PlaceInfo :=
  let base : PlaceInfo :=
    { place_id := "gemini_" ++ toString ts ++ "_" ++ p.name.take 20
      name := p.name
      formatted_address := p.formatted_address
      summary := some p.summary
      rating := 0
      website := p.website
      lat := none
      lng := none
      s3_image_url := none
      s3_image_urls := []
      reviews := [] }
  match p.lat, p.lng with
  | some la, some ln => { base with lat := some la, lng := some ln }
  | _, _ =>
      if p.formatted_address ≠ "" then
        match geocodeAddress provider p.formatted_address with
        | some c => { base with lat := some c.1, lng := some c.2 }
        | none => { base with lat := some lat, lng := some lng }
      else { base with lat := some lat, lng := some lng }

/-- The coordinates supplied directly by the generative response, when both
are present. -/
def directCoords (p : GeminiPlace) : Option (ℚ × ℚ) :=
  match p.lat, p.lng with
  | some la, some ln => some (la, ln)
  | _, _ => none

/-- The spec's fallback chain, stated in its own words: (1) coordinates from
the generative response, (2) geocoding the returned address, (3) the search
center. -/
def specCoordChain (direct : Option (ℚ × ℚ))
    (provider : String → Option (ℚ × ℚ)) (address : String)
    (center : ℚ × ℚ) : ℚ × ℚ :=
  match direct with
  | some c => c
  | none =>
      match geocodeAddress provider address with
      | some c => c
      | none => center

/-- C7.  Every events-path candidate carries non-null coordinates equal to the
spec's fallback chain, and every structured-path candidate that survives the
detail lookup carries non-null coordinates: its geometry when present, the
search center otherwise. -/
theorem claim7_coordinates (provider : String → Option (ℚ × ℚ))
    (details : String → Option PlaceDetails)
    (uploadResult : String → Option String) (lat lng : ℚ) (ts : ℕ)
    (p : GeminiPlace) (q : NearbyPlace) :
    ((eventPlaceInfo provider lat lng ts p).lat).isSome = true
    ∧ ((eventPlaceInfo provider lat lng ts p).lng).isSome = true
    ∧ (eventPlaceInfo provider lat lng ts p).lat
        = some (specCoordChain (directCoords p) provider p.formatted_address
            (lat, lng)).1
    ∧ (eventPlaceInfo provider lat lng ts p).lng
        = some (specCoordChain (directCoords p) provider p.formatted_address
            (lat, lng)).2
    ∧ ((foodDetailStep details uploadResult lat lng q).map
          fun info => (info.lat, info.lng))
        = ((if q.place_id = "" then none else details q.place_id).map
          fun d => (some (d.location.getD (lat, lng)).1,
                    some (d.location.getD (lat, lng)).2)) := by
  have hev : (eventPlaceInfo provider lat lng ts p).lat
        = some (specCoordChain (directCoords p) provider p.formatted_address
            (lat, lng)).1
      ∧ (eventPlaceInfo provider lat lng ts p).lng
        = some (specCoordChain (directCoords p) provider p.formatted_address
            (lat, lng)).2 := by
    unfold eventPlaceInfo specCoordChain directCoords
    cases hla : p.lat with
    | some la =>
        cases hln : p.lng with
        | some ln => exact ⟨rfl, rfl⟩
        | none =>
            by_cases ha : p.formatted_address = ""
            · simp [ha, geocodeAddress]
            · simp only [ne_eq, ha, not_false_iff, if_true]
              cases hg : geocodeAddress provider p.formatted_address with
              | some c => exact ⟨rfl, rfl⟩
              | none => exact ⟨rfl, rfl⟩
    | none =>
        by_cases ha : p.formatted_address = ""
        · simp [ha, geocodeAddress]
        · simp only [ne_eq, ha, not_false_iff, if_true]
          cases hg : geocodeAddress provider p.formatted_address with
          | some c => exact ⟨rfl, rfl⟩
          | none => exact ⟨rfl, rfl⟩
  refine ⟨by rw [hev.1]; rfl, by rw [hev.2]; rfl, hev.1, hev.2, ?_⟩
  unfold foodDetailStep
  by_cases hq : q.place_id = ""
  · simp [hq]
  · simp only [hq, if_neg, if_false, ite_false]
    cases details q.place_id with
    | none => rfl
    | some d => rfl

/-! ### `fetch_places_via_gemini` for the events category (lines 218-412) -/

/-- One element of the parsed JSON array, with the two possible field spellings
the code probes (`place_name`/`name`, `place_address`/`address`,
`latitude`/`lat`, `longitude`/`lng`). -/
structure RawGeminiItem where
  place_name : Option String
  name : Option String
  place_address : Option String
  address : Option String
  latitude : Option ℚ
  lat : Option ℚ
  longitude : Option ℚ
  lng : Option ℚ
  summary : Option String
  website : Option String
deriving DecidableEq, Repr

/-- The generative-AI textual response after stripping code fences: either
empty text (the code raises), unparseable JSON (the code raises), or a parsed
array of items. -/
inductive GeminiResponse where
  | emptyText
  | unparseable
  | parsed (items : List RawGeminiItem)
deriving DecidableEq, Repr

/-- Python's `a or b` for an optional string against a string default. -/
def pyOrStrOpt (a : Option String) (b : String) : String :=
  match a with
  | some s => if s ≠ "" then s else b
  | none => b

/-- Python's `a or b` for optional numbers: a present zero is falsy. -/
def pyOrRatOpt (a : Option ℚ) (b : Option ℚ) : Option ℚ :=
  match a with
  | some x => if x ≠ 0 then some x else b
  | none => b

/-- The per-item validation loop of lines 362-400 for the events category:
probe both field spellings, skip nameless items, set `lat`/`lng` together only
when both coordinates are present. -/
def toGeminiPlaceEvents (item : RawGeminiItem) : Option GeminiPlace :=
  let placeName := pyOrStrOpt item.place_name (item.name.getD "")
  let placeAddress := pyOrStrOpt item.place_address (item.address.getD "")
  let latitude := pyOrRatOpt item.latitude item.lat
  let longitude := pyOrRatOpt item.longitude item.lng
  if placeName = "" then none
  else
    some { name := placeName
           formatted_address := placeAddress
           summary := item.summary.getD ""
           rating := 0
           website := item.website.getD ""
           lat := if latitude.isSome && longitude.isSome then latitude else none
           lng := if latitude.isSome && longitude.isSome then longitude else none }

/-- `fetch_places_via_gemini` for the events category: empty or unparseable
responses raise (the messages below are the raised ones); a parsed array is
validated item by item. -/
def fetchPlacesViaGeminiEvents (resp : GeminiResponse) :
    Except String (List GeminiPlace) :=
  match resp with
  | .emptyText => .error "Gemini 返回空响应"
  | .unparseable => .error "JSON 解析错误"
  | .parsed items => .ok (items.filterMap toGeminiPlaceEvents)

/-- `fetch_places_via_gemini_and_process_images` for the events category
(lines 827-909): an empty candidate list returns `[]` (line 838-839, not an
error); otherwise sort/truncate and build the `place_info` records. -/
def fetchEventsAndProcessImages (resp : GeminiResponse)
    (provider : String → Option (ℚ × ℚ)) (lat lng : ℚ) (ts : ℕ) :
    Except String (List PlaceInfo) :=
  match fetchPlacesViaGeminiEvents resp with
  | .error e => .error e
  | .ok places =>
      if places.isEmpty then .ok []
      else .ok ((processEventPlaces places).map (eventPlaceInfo provider lat lng ts))

/-! ### Lambda B, the executor (src/lambda_b_executor.py) -/

/-- The job-result object persisted to durable storage:
`save_result_to_s3` writes `status = "completed"` with a result document,
`save_error_to_s3` writes `status = "failed"` with an error string. -/
structure JobRecord where
  jobId : String
  status : String
  completedAt : String
  error : Option String
  result : Option ResultDocument
deriving DecidableEq, Repr

/-- The empty-markers document built in the executor's no-results branch. -/
def emptyResultDocument (requestId generatedAt : String) : ResultDocument :=
  { requestId := requestId
    generatedAt := generatedAt
    ttlSeconds := 300
    markers := [] }

/-- The executor's control flow for an events-category job (lines 76-157 of
src/lambda_b_executor.py): any exception from the fetch stage is caught and
persisted as a failed record; an empty candidate list is persisted as a
completed record with an empty markers array; otherwise the assembled document
is persisted as completed. -/
def executeEventsJob (jobId : String) (resp : GeminiResponse)
    (provider : String → Option (ℚ × ℚ)) (lat lng : ℚ) (ts : ℕ)
    (subType requestId generatedAt completedAt : String) : JobRecord :=
  match fetchEventsAndProcessImages resp provider lat lng ts with
  | .error e =>
      { jobId := jobId, status := "failed", completedAt := completedAt
        error := some e, result := none }
  | .ok processedPlaces =>
      if processedPlaces.isEmpty then
        { jobId := jobId, status := "completed", completedAt := completedAt
          error := none
          result := some (emptyResultDocument requestId generatedAt) }
      else
        { jobId := jobId, status := "completed", completedAt := completedAt
          error := none
          result := some (formatPlacesToMarkers processedPlaces "跳蚤市场或活动"
            subType requestId generatedAt ts) }

/-- C1 counterexample: when the generative response parses to zero results,
the events job is persisted as `completed` with an empty markers array and no
error — not as `failed`. -/
theorem claim1_counterexample :
    (executeEventsJob "job_1" (.parsed []) (fun _ => none) 35 139 0
        "" "req_44444444" "2024-01-01T00:00:00Z" "2024-01-01T00:00:01Z").status
      = "completed"
    ∧ (executeEventsJob "job_1" (.parsed []) (fun _ => none) 35 139 0
        "" "req_44444444" "2024-01-01T00:00:00Z" "2024-01-01T00:00:01Z").error
      = none
    ∧ ((executeEventsJob "job_1" (.parsed []) (fun _ => none) 35 139 0
        "" "req_44444444" "2024-01-01T00:00:00Z" "2024-01-01T00:00:01Z").result).map
        ResultDocument.markers = some [] :=
  ⟨rfl, rfl, rfl⟩

/-- C1 amended: only an empty or unparseable generative response is a hard
failure, persisted as `failed` with the non-empty raised message; a response
that parses to zero results is persisted as `completed` with an empty markers
array. -/
theorem claim1_amended (jobId : String)
    (provider : String → Option (ℚ × ℚ)) (lat lng : ℚ) (ts : ℕ)
    (subType requestId generatedAt completedAt : String) :
    ((executeEventsJob jobId .emptyText provider lat lng ts subType requestId
        generatedAt completedAt).status = "failed"
      ∧ (executeEventsJob jobId .emptyText provider lat lng ts subType requestId
        generatedAt completedAt).error = some "Gemini 返回空响应"
      ∧ "Gemini 返回空响应" ≠ "")
    ∧ ((executeEventsJob jobId .unparseable provider lat lng ts subType requestId
        generatedAt completedAt).status = "failed"
      ∧ (executeEventsJob jobId .unparseable provider lat lng ts subType requestId
        generatedAt completedAt).error = some "JSON 解析错误"
      ∧ "JSON 解析错误" ≠ "")
    ∧ ((executeEventsJob jobId (.parsed []) provider lat lng ts subType requestId
        generatedAt completedAt).status = "completed"
      ∧ ((executeEventsJob jobId (.parsed []) provider lat lng ts subType requestId
        generatedAt completedAt).result).map ResultDocument.markers = some []) :=
  ⟨⟨rfl, rfl, by decide⟩, ⟨rfl, rfl, by decide⟩, ⟨rfl, rfl⟩⟩

/-! ### Lambda C, the checker (src/lambda_c_checker.py) -/

/-- The outcome of the `get_object` call on the job-result key: a parsed
record, or a client error carrying the provider's error code (`NoSuchKey` /
`404` mean the record is absent). -/
inductive S3GetObjectResult where
  | found (record : JobRecord)
  | clientError (code : String)
deriving DecidableEq, Repr

/-- The JSON body of a checker response; absent keys are `none`. -/
structure CheckerBody where
  jobId : Option String
  status : Option String
  completedAt : Option String
  result : Option ResultDocument
  error : Option String
  message : Option String
  retryAfter : Option ℕ
  data : Option JobRecord
deriving DecidableEq, Repr

def emptyBody : CheckerBody :=
  { jobId := none, status := none, completedAt := none, result := none
    error := none, message := none, retryAfter := none, data := none }

structure HttpResponse where
  statusCode : ℕ
  body : CheckerBody
deriving DecidableEq, Repr

/-- The dispatch on the outcome of the durable-storage lookup (the inner
`try get_object` block).  The record's `result` field plays the role of
`result_data.get("result", {})`. -/
def checkerLookupResponse (jid : String) (lookup : S3GetObjectResult) :
    HttpResponse :=
  match lookup with
  | .found record =>
      if record.status = "completed" then
        { statusCode := 200
          body := { emptyBody with
            jobId := some jid
            status := some "completed"
            completedAt := some record.completedAt
            result := record.result } }
      else if record.status = "failed" then
        { statusCode := 200
          body := { emptyBody with
            jobId := some jid
            status := some "failed"
            completedAt := some record.completedAt
            error := some (record.error.getD "未知错误") } }
      else
        { statusCode := 200
          body := { emptyBody with
            jobId := some jid
            status := some record.status
            data := some record } }
  | .clientError code =>
      if code = "NoSuchKey" ∨ code = "404" then
        { statusCode := 200
          body := { emptyBody with
            jobId := some jid
            status := some "processing"
            message := some "任务正在处理中，请稍后再试"
            retryAfter := some 5 } }
      else
        { statusCode := 500
          body := { emptyBody with
            error := some ("服务器内部错误: " ++ code) } }

/-- `lambda_handler` of src/lambda_c_checker.py.  `jobId` is the identifier
extracted from path, query or body (`none` when absent everywhere);
`bucketConfigured` is the `S3_BUCKET_NAME` presence check; `s3Get` is the
durable-storage lookup. -/
def checkerHandler (jobId : Option String) (bucketConfigured : Bool)
    (s3Get : String → S3GetObjectResult) : HttpResponse :=
  match jobId with
  | none =>
      { statusCode := 400
        body := { emptyBody with error := some "缺少必需参数: job_id" } }
  | some jid =>
      if !bucketConfigured then
        { statusCode := 500
          body := { emptyBody with error := some "S3_BUCKET_NAME 未配置" } }
      else checkerLookupResponse jid (s3Get jid)

/-- C8.  Polling a job identifier whose record is absent from durable storage
(the lookup reports `NoSuchKey` or `404`) returns HTTP 200 with status
`processing`, a five-second retry hint, and no error. -/
theorem claim8_missing_record_processing (jid : String)
    (s3Get : String → S3GetObjectResult) (code : String)
    (habsent : s3Get jid = .clientError code)
    (hcode : code = "NoSuchKey" ∨ code = "404") :
    (checkerHandler (some jid) true s3Get).statusCode = 200
    ∧ (checkerHandler (some jid) true s3Get).body.status = some "processing"
    ∧ (checkerHandler (some jid) true s3Get).body.retryAfter = some 5
    ∧ (checkerHandler (some jid) true s3Get).body.error = none := by
  have hmain : checkerHandler (some jid) true s3Get
      = checkerLookupResponse jid (.clientError code) := by
    show checkerLookupResponse jid (s3Get jid) = _
    rw [habsent]
  rw [hmain]
  rcases hcode with rfl | rfl <;> exact ⟨rfl, rfl, rfl, rfl⟩

/-- C8 witness: the theorem applied to a concrete lookup stub that reports
`NoSuchKey` for every key. -/
theorem claim8_witness :
    ((fun _ : String => S3GetObjectResult.clientError "NoSuchKey") "job_unknown"
        = S3GetObjectResult.clientError "NoSuchKey"
      ∧ ("NoSuchKey" = "NoSuchKey" ∨ "NoSuchKey" = "404"))
    ∧ (checkerHandler (some "job_unknown") true
        (fun _ => S3GetObjectResult.clientError "NoSuchKey")).statusCode = 200
    ∧ (checkerHandler (some "job_unknown") true
        (fun _ => S3GetObjectResult.clientError "NoSuchKey")).body.status
        = some "processing"
    ∧ (checkerHandler (some "job_unknown") true
        (fun _ => S3GetObjectResult.clientError "NoSuchKey")).body.retryAfter
        = some 5
    ∧ (checkerHandler (some "job_unknown") true
        (fun _ => S3GetObjectResult.clientError "NoSuchKey")).body.error
        = none := by
  refine ⟨⟨rfl, Or.inl rfl⟩, ?_⟩
  exact claim8_missing_record_processing "job_unknown" _ "NoSuchKey" rfl (Or.inl rfl)

end Mapannai
